import Mathlib

/-!
Verification development for the Embraco Starter Flipper Zero application
(`src/embraco_starter.c`, plus the variant with an inverter-selection screen)
and the companion CF10B GPIO tool (`cf10b_tool/engine.c`, `cf10b_tool/cfg_io.h`).

The C code is shallowly embedded: hardware and OS side effects
(PWM start/stop, GPIO reconfiguration, LED, timer alloc/start/stop/free,
the 1 ms settle delay) are logged as an explicit event trace `List Ev`
in program order, and the mutable `AppState` struct is threaded explicitly.
Machine integers are modelled as `Nat`; every arithmetic step that could
overflow in C is commented at its definition.
-/

/-- Kinds of `FuriTimer` objects owned by the application: the 1 Hz countdown
tick timer, the one-shot auto-off timer, the LED blink timer and the
back-hint auto-dismiss timer. -/
inductive TimerKind where
  | tick
  | off
  | led
  | hint
deriving DecidableEq

/-- Hardware / OS side effects emitted by the embedded code, in program order.
`allocTimer k periodic` records a `furi_timer_alloc` call, `delayMs` a
`furi_delay_ms`, `pinHiZ` / `pinPPLow` the two GPIO reconfiguration helpers
`pin_to_hiz` / `pin_to_pp_low`, and `ledSet` a notification LED command. -/
inductive Ev where
  | pwmStop : Ev
  | delayMs : Nat → Ev
  | pwmStart : Nat → Nat → Ev
  | pinHiZ : Ev
  | pinPPLow : Ev
  | ledSet : Bool → Ev
  | allocTimer : TimerKind → Bool → Ev
  | freeTimer : TimerKind → Ev
  | startTimer : TimerKind → Nat → Ev
  | stopTimer : TimerKind → Ev
deriving DecidableEq

/-- Events that drive the shared physical pin PA7: PWM stop/start and the two
GPIO reconfigurations. Timer bookkeeping and LED commands do not touch PA7. -/
def Ev.isPinDrive : Ev → Bool
  | .pwmStop => true
  | .pwmStart _ _ => true
  | .pinHiZ => true
  | .pinPPLow => true
  | _ => false

/-- Electrical configuration of the PA7 pin. -/
inductive PinMode where
  | hiZ
  | ppLow
  | pwmOut
deriving DecidableEq

/-- Abstract state of the physical peripherals driven by the trace:
pin configuration, whether the hardware PWM generator runs, LED level. -/
structure HwState where
  pin : PinMode
  pwm_on : Bool
  led : Bool
deriving DecidableEq

/-- Effect of one trace event on the physical peripherals. -/
def step_hw (h : HwState) : Ev → HwState
  | .pwmStop => { h with pwm_on := false }
  | .pwmStart _ _ => { h with pwm_on := true, pin := .pwmOut }
  | .pinHiZ => { h with pin := .hiZ }
  | .pinPPLow => { h with pin := .ppLow }
  | .ledSet b => { h with led := b }
  | _ => h

/-- Replay of a whole trace on the physical peripherals. -/
def run_hw (h : HwState) (tr : List Ev) : HwState := tr.foldl step_hw h

/-- A `FuriTimer` object: whether it is currently started, its last
programmed period in ms, and whether it was allocated as periodic
(`FuriTimerTypePeriodic`) or one-shot (`FuriTimerTypeOnce`). -/
structure TimerH where
  running : Bool
  period_ms : Nat
  periodic : Bool
deriving DecidableEq

/-- `furi_timer_stop` on a (possibly NULL) timer handle. -/
def timer_stop1 (k : TimerKind) (o : Option TimerH) : Option TimerH × List Ev :=
  match o with
  | some t => (some { t with running := false }, [Ev.stopTimer k])
  | none => (none, [])

/-- `furi_timer_start` on a timer handle: records the period and marks the
timer running; the periodic/one-shot type fixed at allocation is kept. -/
def timer_start1 (k : TimerKind) (o : Option TimerH) (period : Nat) :
    Option TimerH × List Ev :=
  match o with
  | some t => (some { t with running := true, period_ms := period }, [Ev.startTimer k period])
  | none => (none, [Ev.startTimer k period])

/-- One entry of the `kModes` table of `src/embraco_starter.c`: display name,
PWM frequency in Hz (0 = no PWM), LED blink rate, default runtime limit in
seconds when the Limit setting is on. -/
structure Mode where
  name : String
  freq_hz : Nat
  led_blink_hz : Nat
  default_secs : Nat
deriving DecidableEq

/-- The static mode table of `src/embraco_starter.c` (order is significant:
index 0 is Power off). -/
def kModes : List Mode :=
  [ { name := "Power off", freq_hz := 0, led_blink_hz := 0, default_secs := 0 },
    { name := "Low speed", freq_hz := 55, led_blink_hz := 1, default_secs := 120 },
    { name := "Mid speed", freq_hz := 100, led_blink_hz := 2, default_secs := 60 },
    { name := "Max speed", freq_hz := 160, led_blink_hz := 4, default_secs := 30 } ]

/-- `MODE_COUNT` of `src/embraco_starter.c`. -/
def MODE_COUNT : Nat := kModes.length

/-- Array access `kModes[idx]`; callers guarantee `idx < MODE_COUNT`. -/
def modeAt (idx : Nat) : Mode := kModes.getD idx ⟨"", 0, 0, 0⟩

/-- `pwm_hw_stop_safe`: if the PWM generator is running, stop it, wait the
fixed 1 ms settle delay, and clear the running flag. -/
def pwm_hw_stop_safe (running : Bool) : Bool × List Ev :=
  if running then (false, [Ev.pwmStop, Ev.delayMs 1]) else (running, [])

/-- `pwm_hw_start_safe`: start hardware PWM at the given frequency with
50% duty and set the running flag. -/
def pwm_hw_start_safe (freq_hz : Nat) : Bool × List Ev :=
  (true, [Ev.pwmStart freq_hz 50])

/-- `engine_cf10b_checksum` of `cf10b_tool/engine.c`: the running sum of the
four frame bytes is truncated to a byte (`uint8_t` cast, i.e. `% 256`, the
`& 0xFF` in the source is then redundant) and subtracted from 0x100, the
result again truncated to a byte. -/
def engine_cf10b_checksum (id cmd lsb msb : Nat) : Nat :=
  let sum := (id + cmd + lsb + msb) % 256
  (0x100 - sum % 256) % 256

/-- `engine_cf10b_build_set_speed` of `cf10b_tool/engine.c`: clamp the RPM to
4500, split it into LSB/MSB bytes (`rpm & 0xFF` and `(rpm >> 8) & 0xFF`), and
produce the 5-byte frame `[0xA5, 0xC3, lsb, msb, checksum]`. The C function
also returns the length 5, which here is the length of the list. -/
def engine_cf10b_build_set_speed (rpm : Nat) : List Nat :=
  let rpm := if rpm > 4500 then 4500 else rpm
  let id := 0xA5
  let cmd := 0xC3
  let lsb := rpm % 256
  let msb := (rpm / 256) % 256
  [id, cmd, lsb, msb, engine_cf10b_checksum id cmd lsb msb]

/-- The three screens of `src/embraco_starter.c` (`ScreenId`). -/
inductive ScreenId where
  | menu
  | help
  | settings
deriving DecidableEq

/-- The `AppState` struct of `src/embraco_starter.c`. Timer handles are
`Option TimerH` (`none` = NULL pointer); the GUI/queue plumbing fields
(`notif`, `gui`, `vp`, `q`) are external resources with no bearing on the
claims and are not modelled. -/
structure AppState where
  screen : ScreenId
  cursor : Nat
  first_visible : Nat
  active : Nat
  help_top_line : Nat
  limit_runtime : Bool
  led_timer : Option TimerH
  led_on : Bool
  pwm_running : Bool
  hint_visible : Bool
  hint_timer : Option TimerH
  tick_timer : Option TimerH
  off_timer : Option TimerH
  remaining_ms : Nat
  timeout_expired : Bool
deriving DecidableEq

/-- `led_apply` of `src/embraco_starter.c`: stop and free any LED blink
timer, force the LED off, and for a non-zero blink rate allocate and start a
fresh periodic timer with half-period `1000/(2*blink_hz)` ms (minimum 1). -/
def led_apply (s : AppState) (blink_hz : Nat) : AppState × List Ev :=
  let (s, e1) :=
    match s.led_timer with
    | some _ => ({ s with led_timer := none }, [Ev.stopTimer .led, Ev.freeTimer .led])
    | none => (s, [])
  let s := { s with led_on := false }
  let e2 := [Ev.ledSet false]
  if blink_hz = 0 then (s, e1 ++ e2)
  else
    let ms0 := 1000 / (blink_hz * 2)
    let ms := if ms0 = 0 then 1 else ms0
    ({ s with led_timer := some ⟨true, ms, true⟩ },
      e1 ++ e2 ++ [Ev.allocTimer .led true, Ev.startTimer .led ms])

/-- `stop_timers` of `src/embraco_starter.c`: stop the tick and off timers
(without freeing them). -/
def stop_timers (s : AppState) : AppState × List Ev :=
  let (tt, e1) := timer_stop1 .tick s.tick_timer
  let (ot, e2) := timer_stop1 .off s.off_timer
  ({ s with tick_timer := tt, off_timer := ot }, e1 ++ e2)

/-- `free_timers` of `src/embraco_starter.c`: free both countdown timers and
NULL the handles. -/
def free_timers (s : AppState) : AppState × List Ev :=
  let (s, e1) :=
    match s.tick_timer with
    | some _ => ({ s with tick_timer := none }, [Ev.freeTimer .tick])
    | none => (s, [])
  let (s, e2) :=
    match s.off_timer with
    | some _ => ({ s with off_timer := none }, [Ev.freeTimer .off])
    | none => (s, [])
  (s, e1 ++ e2)

/-- `start_tick_timer_if_needed` of `src/embraco_starter.c`: stop both
timers and reset the countdown bookkeeping; when the Limit setting is on,
a non-idle mode is active and its default limit is non-zero, set
`remaining_ms` to the full limit, allocate the 1 Hz periodic tick timer and
the one-shot off timer if not yet allocated, and start the tick timer at
1000 ms and the off timer at exactly `remaining_ms`. -/
def start_tick_timer_if_needed (s : AppState) : AppState × List Ev :=
  let (s, e1) := stop_timers s
  let s := { s with remaining_ms := 0, timeout_expired := false }
  if !s.limit_runtime then (s, e1)
  else if s.active = 0 then (s, e1)
  else
    let secs := (modeAt s.active).default_secs
    if secs = 0 then (s, e1)
    else
      let s := { s with remaining_ms := secs * 1000 }
      let (s, e2) :=
        match s.tick_timer with
        | none => ({ s with tick_timer := some ⟨false, 0, true⟩ }, [Ev.allocTimer .tick true])
        | some _ => (s, [])
      let (s, e3) :=
        match s.off_timer with
        | none => ({ s with off_timer := some ⟨false, 0, false⟩ }, [Ev.allocTimer .off false])
        | some _ => (s, [])
      let (tt, e4) := timer_start1 .tick s.tick_timer 1000
      let (ot, e5) := timer_start1 .off s.off_timer s.remaining_ms
      ({ s with tick_timer := tt, off_timer := ot }, e1 ++ e2 ++ e3 ++ e4 ++ e5)

/-- `apply_mode` of `src/embraco_starter.c`: guard against an out-of-range
index, record the new active mode, and either (freq 0) stop PWM, drive the
pin push-pull low and clear the countdown, or (freq non-zero) stop any
previous PWM, start the new frequency and re-arm the countdown; finally
reconfigure the LED blink. -/
def apply_mode (s : AppState) (idx : Nat) : AppState × List Ev :=
  if MODE_COUNT ≤ idx then (s, [])
  else
    let s := { s with active := idx }
    let m := modeAt idx
    if m.freq_hz = 0 then
      let (pr, e1) := pwm_hw_stop_safe s.pwm_running
      let s := { s with pwm_running := pr }
      let (s, e3) := stop_timers s
      let s := { s with remaining_ms := 0, timeout_expired := false }
      let (s, e4) := led_apply s m.led_blink_hz
      (s, e1 ++ [Ev.pinPPLow] ++ e3 ++ e4)
    else
      let (pr, e1) := pwm_hw_stop_safe s.pwm_running
      let s := { s with pwm_running := pr }
      let (pr2, e2) := pwm_hw_start_safe m.freq_hz
      let s := { s with pwm_running := pr2 }
      let (s, e3) := start_tick_timer_if_needed s
      let (s, e4) := led_apply s m.led_blink_hz
      (s, e1 ++ e2 ++ e3 ++ e4)

/-- `tick_timer_cb` of `src/embraco_starter.c`: once per second decrement
the displayed remaining time by 1000 ms, clamped at 0 (the callback also
requests a view-port redraw, a pure UI effect). -/
def tick_timer_cb (s : AppState) : AppState :=
  { s with remaining_ms := if s.remaining_ms ≥ 1000 then s.remaining_ms - 1000 else 0 }

/-- `off_timer_cb` of `src/embraco_starter.c`: on expiry of the one-shot
timer, zero the displayed remaining time and raise the `timeout_expired`
flag for the main loop (plus a view-port redraw). The callback performs no
mode transition and touches no hardware. -/
def off_timer_cb (s : AppState) : AppState :=
  { s with remaining_ms := 0, timeout_expired := true }

/-- The timeout-service block at the top of the main loop of
`src/embraco_starter.c` (`if(s.timeout_expired){...}`): clear the flag,
apply mode 0 (Power off) and reset the menu cursor. -/
def service_timeout (s : AppState) : AppState × List Ev :=
  if s.timeout_expired then
    let s := { s with timeout_expired := false }
    let (s, tr) := apply_mode s 0
    ({ s with cursor := 0, first_visible := 0 }, tr)
  else (s, [])

/-- The `InputKeyOk` handler of the Settings screen of
`src/embraco_starter.c`, with the result of the blocking
`show_limit_alert_confirm` dialog passed in as `confirm`: turning the limit
off (after confirmation) stops both timers and zeroes `remaining_ms`;
turning it on restarts the countdown when a non-idle mode is active. -/
def settings_ok_handler (s : AppState) (confirm : Bool) : AppState × List Ev :=
  if s.limit_runtime then
    if confirm then
      let s := { s with limit_runtime := false }
      let (s, tr) := stop_timers s
      ({ s with remaining_ms := 0 }, tr)
    else (s, [])
  else
    let s := { s with limit_runtime := true }
    if s.active ≠ 0 then start_tick_timer_if_needed s else (s, [])

/-- A timer handle is allocated and currently started. -/
def timer_running : Option TimerH → Bool
  | some t => t.running
  | none => false

/-- `draw_scrollbar_dotted` of `src/embraco_starter.c`, reduced to the thumb
placement it draws: the result is the `thumb_y` centre of the 3x4 thumb box,
or `none` when `total_steps <= 1` (the function returns before drawing any
thumb). Geometry: rail from `y0 = 2` to `y1 = 62`, track height 60, divided
by `total_steps - 1` so the extreme positions land on the ends, then clamped
into `[y0, y1 - 1]`. In C the multiplication `pos * track_h` happens after
integer promotion of the `uint16_t` operands, so for `pos < total_steps`
(the callers' range) no truncation occurs and `Nat` arithmetic is exact. -/
def draw_scrollbar_dotted (total_steps pos : Nat) : Option Nat :=
  if total_steps ≤ 1 then none
  else
    let y0 := 2
    let y1 := 62
    let track_h := y1 - y0
    let denom := if total_steps > 1 then total_steps - 1 else 1
    let thumb_y := y0 + pos * track_h / denom
    let thumb_y := if thumb_y < y0 then y0 else thumb_y
    let thumb_y := if thumb_y > y1 - 1 then y1 - 1 else thumb_y
    some thumb_y

/-- `ModelKind` of `cf10b_tool/profile.h`. -/
inductive ModelKind where
  | frequency
  | serial
  | dropin
deriving DecidableEq

/-- The `safety` sub-struct of `GpioProfile` in `cf10b_tool/profile.h`. -/
structure EngineSafety where
  boot_all_off : Bool
  interlock_in0_blocks_out0 : Bool
deriving DecidableEq

/-- `GpioProfile` of `cf10b_tool/profile.h`. The `out0` / `in0` pin pointers
are modelled by their nullness (`has_out0` / `has_in0`); which concrete pin
they point at does not affect the control flow under verification. -/
structure GpioProfile where
  name : String
  kind : ModelKind
  has_out0 : Bool
  has_in0 : Bool
  out_active_high : Bool
  debounce_ms : Nat
  pwm_freq_hz : Nat
  pwm_duty_pc : Nat
  safety : EngineSafety
  version : Nat
deriving DecidableEq

/-- `EngineState` of `cf10b_tool/engine.h`. -/
structure EngineState where
  out_state : Bool
  in_state : Bool
  in_last_change_ms : Nat
  next_toggle_ms : Nat
  phase_on : Bool
  current_freq_hz : Nat
  armed : Bool
deriving DecidableEq

/-- One physical write performed by `write_out` of `cf10b_tool/engine.c`:
`on` is the logical request (output active) and `level` the polarity-adjusted
electrical level actually written. -/
structure OutWrite where
  out_on : Bool
  level : Bool
deriving DecidableEq

/-- `write_out` of `cf10b_tool/engine.c` (parameter `on` renamed `v`, a Lean
keyword): no write when `out0` is NULL, otherwise write `v` through the
configured polarity. -/
def write_out (p : GpioProfile) (v : Bool) : List OutWrite :=
  if p.has_out0 then [{ out_on := v, level := if p.out_active_high then v else !v }] else []

/-- `tick_frequency` of `cf10b_tool/engine.c`: clamp the configured
frequency to the CF10B range 66..150 Hz, derive the half-period (minimum
1 ms), and when the current time has reached `next_toggle_ms` toggle the
logical phase, write `armed && phase_on` to the output and schedule the
next toggle. `t` is the `furi_get_tick()` value read by `now_ms()`. -/
def tick_frequency (st : EngineState) (p : GpioProfile) (t : Nat) :
    EngineState × List OutWrite :=
  let hz := if p.pwm_freq_hz < 66 then 66 else if p.pwm_freq_hz > 150 then 150 else p.pwm_freq_hz
  let st := { st with current_freq_hz := hz }
  let period_ms := 1000 / (if hz = 0 then 1 else hz)
  let period_ms := if period_ms = 0 then 1 else period_ms
  let half := period_ms / 2
  let half := if half = 0 then 1 else half
  if st.next_toggle_ms ≤ t then
    let st := { st with phase_on := !st.phase_on }
    let ws := write_out p (st.armed && st.phase_on)
    ({ st with next_toggle_ms := t + half }, ws)
  else (st, [])

/-- `engine_tick` of `cf10b_tool/engine.c`. The debounced input read
(`read_debounced`, a GPIO read filtered through function-static debounce
state) is abstracted by its result `inp`; `t` is the current tick time.
The safety interlock runs unconditionally before the model dispatch:
with `interlock_in0_blocks_out0` set and the debounced input active,
`armed` is forced false. Serial and drop-in models do nothing per tick. -/
def engine_tick (st : EngineState) (p : GpioProfile) (inp : Bool) (t : Nat) :
    EngineState × List OutWrite :=
  let st := { st with in_state := inp }
  let st :=
    if p.safety.interlock_in0_blocks_out0 && st.in_state then { st with armed := false } else st
  match p.kind with
  | .frequency => tick_frequency st p t
  | .serial => (st, [])
  | .dropin => (st, [])

/-- The static `profiles[]` array of `cf10b_tool/cfg_io.h` as initialized
(pin pointers start NULL; `profile_init` later fills in safe defaults and
SD overrides, which does not change the count). -/
def profiles : List GpioProfile :=
  [ { name := "FREQUENCY", kind := .frequency, has_out0 := false, has_in0 := false,
      out_active_high := true, debounce_ms := 20, pwm_freq_hz := 150, pwm_duty_pc := 50,
      safety := { boot_all_off := true, interlock_in0_blocks_out0 := true }, version := 1 },
    { name := "SERIAL", kind := .serial, has_out0 := false, has_in0 := false,
      out_active_high := true, debounce_ms := 20, pwm_freq_hz := 0, pwm_duty_pc := 0,
      safety := { boot_all_off := true, interlock_in0_blocks_out0 := false }, version := 1 },
    { name := "DROPIN", kind := .dropin, has_out0 := false, has_in0 := false,
      out_active_high := true, debounce_ms := 20, pwm_freq_hz := 0, pwm_duty_pc := 0,
      safety := { boot_all_off := true, interlock_in0_blocks_out0 := false }, version := 1 } ]

/-- `profile_count` of `cf10b_tool/cfg_io.h`. -/
def profile_count : Nat := profiles.length

/-- `ProfileRuntime` (`g_rt`) of `cf10b_tool/profile.h`. The `active`
pointer always equals `&profiles[active_index]`, so it is represented by
`active_index` alone. -/
structure ProfileRuntime where
  active_index : Nat
  locked : Bool
deriving DecidableEq

/-- `profile_set_active` of `cf10b_tool/cfg_io.h`: an out-of-range index is
silently ignored, otherwise the active index (and with it the `active`
pointer) is updated. -/
def profile_set_active (rt : ProfileRuntime) (idx : Nat) : ProfileRuntime :=
  if profile_count ≤ idx then rt else { rt with active_index := idx }

namespace V2

/-- `ScreenId` of the inverter-selection variant of the application (the
unnamed source with `ScreenSelectInverter`). -/
inductive ScreenId where
  | selectInverter
  | menu
  | help
  | settings
deriving DecidableEq

/-- `InverterId` of the inverter-selection variant. -/
inductive InverterId where
  | embraco
  | samsung
deriving DecidableEq

/-- `AppState` of the inverter-selection variant: adds the current screen
out of four, the inverter identity, the `powered` flag gating the dynamic
menu, and the `arrow_captcha` placeholder setting. -/
structure AppState where
  screen : ScreenId
  inverter : InverterId
  powered : Bool
  cursor : Nat
  first_visible : Nat
  active : Nat
  help_top_line : Nat
  limit_runtime : Bool
  arrow_captcha : Bool
  led_timer : Option TimerH
  led_on : Bool
  pwm_running : Bool
  hint_visible : Bool
  hint_timer : Option TimerH
  tick_timer : Option TimerH
  off_timer : Option TimerH
  remaining_ms : Nat
  timeout_expired : Bool
deriving DecidableEq

/-- `kModes` of the inverter-selection variant (index 0 is Stand by:
push-pull low, no PWM, no countdown). -/
def kModes : List Mode :=
  [ { name := "Stand by", freq_hz := 0, led_blink_hz := 0, default_secs := 0 },
    { name := "Low speed", freq_hz := 55, led_blink_hz := 1, default_secs := 120 },
    { name := "Mid speed", freq_hz := 100, led_blink_hz := 2, default_secs := 60 },
    { name := "Max speed", freq_hz := 160, led_blink_hz := 4, default_secs := 30 } ]

/-- `MODE_COUNT` of the inverter-selection variant. -/
def MODE_COUNT : Nat := kModes.length

/-- `kModes[idx]` of the inverter-selection variant. -/
def modeAt (idx : Nat) : Mode := kModes.getD idx ⟨"", 0, 0, 0⟩

/-- `MAX_ROWS`: the 4-row display window. -/
def MAX_ROWS : Nat := 4

/-- Lengths of the per-inverter help-text arrays `HELP_EMBRACO` /
`HELP_SAMSUNG` (the string contents play no role in the claims). -/
def HELP_EMBRACO_COUNT : Nat := 39

/-- Length of the `HELP_SAMSUNG` array. -/
def HELP_SAMSUNG_COUNT : Nat := 1

/-- `led_apply` of the inverter-selection variant (same code as in
`src/embraco_starter.c`, on this variant's state type). -/
def led_apply (s : AppState) (blink_hz : Nat) : AppState × List Ev :=
  let (s, e1) :=
    match s.led_timer with
    | some _ => ({ s with led_timer := none }, [Ev.stopTimer .led, Ev.freeTimer .led])
    | none => (s, [])
  let s := { s with led_on := false }
  let e2 := [Ev.ledSet false]
  if blink_hz = 0 then (s, e1 ++ e2)
  else
    let ms0 := 1000 / (blink_hz * 2)
    let ms := if ms0 = 0 then 1 else ms0
    ({ s with led_timer := some ⟨true, ms, true⟩ },
      e1 ++ e2 ++ [Ev.allocTimer .led true, Ev.startTimer .led ms])

/-- `stop_timers` of the inverter-selection variant. -/
def stop_timers (s : AppState) : AppState × List Ev :=
  let (tt, e1) := timer_stop1 .tick s.tick_timer
  let (ot, e2) := timer_stop1 .off s.off_timer
  ({ s with tick_timer := tt, off_timer := ot }, e1 ++ e2)

/-- `free_timers` of the inverter-selection variant. -/
def free_timers (s : AppState) : AppState × List Ev :=
  let (s, e1) :=
    match s.tick_timer with
    | some _ => ({ s with tick_timer := none }, [Ev.freeTimer .tick])
    | none => (s, [])
  let (s, e2) :=
    match s.off_timer with
    | some _ => ({ s with off_timer := none }, [Ev.freeTimer .off])
    | none => (s, [])
  (s, e1 ++ e2)

/-- `start_tick_timer_if_needed` of the inverter-selection variant: same as
in `src/embraco_starter.c` with an additional early return when the powered
menu is not active. -/
def start_tick_timer_if_needed (s : AppState) : AppState × List Ev :=
  let (s, e1) := stop_timers s
  let s := { s with remaining_ms := 0, timeout_expired := false }
  if !s.powered then (s, e1)
  else if !s.limit_runtime then (s, e1)
  else if s.active = 0 then (s, e1)
  else
    let secs := (modeAt s.active).default_secs
    if secs = 0 then (s, e1)
    else
      let s := { s with remaining_ms := secs * 1000 }
      let (s, e2) :=
        match s.tick_timer with
        | none => ({ s with tick_timer := some ⟨false, 0, true⟩ }, [Ev.allocTimer .tick true])
        | some _ => (s, [])
      let (s, e3) :=
        match s.off_timer with
        | none => ({ s with off_timer := some ⟨false, 0, false⟩ }, [Ev.allocTimer .off false])
        | some _ => (s, [])
      let (tt, e4) := timer_start1 .tick s.tick_timer 1000
      let (ot, e5) := timer_start1 .off s.off_timer s.remaining_ms
      ({ s with tick_timer := tt, off_timer := ot }, e1 ++ e2 ++ e3 ++ e4 ++ e5)

/-- `apply_mode` of the inverter-selection variant (same structure as in
`src/embraco_starter.c`: guard, stop-before-start, idle is push-pull low). -/
def apply_mode (s : AppState) (idx : Nat) : AppState × List Ev :=
  if MODE_COUNT ≤ idx then (s, [])
  else
    let s := { s with active := idx }
    let m := modeAt idx
    if m.freq_hz = 0 then
      let (pr, e1) := pwm_hw_stop_safe s.pwm_running
      let s := { s with pwm_running := pr }
      let (s, e3) := stop_timers s
      let s := { s with remaining_ms := 0, timeout_expired := false }
      let (s, e4) := led_apply s m.led_blink_hz
      (s, e1 ++ [Ev.pinPPLow] ++ e3 ++ e4)
    else
      let (pr, e1) := pwm_hw_stop_safe s.pwm_running
      let s := { s with pwm_running := pr }
      let (pr2, e2) := pwm_hw_start_safe m.freq_hz
      let s := { s with pwm_running := pr2 }
      let (s, e3) := start_tick_timer_if_needed s
      let (s, e4) := led_apply s m.led_blink_hz
      (s, e1 ++ e2 ++ e3 ++ e4)

/-- `enter_safe_menu` of the inverter-selection variant: drop to the
unpowered menu, disconnect the line (Hi-Z), stop PWM, LED and timers. -/
def enter_safe_menu (s : AppState) : AppState × List Ev :=
  let s := { s with powered := false, cursor := 0, first_visible := 0 }
  let (pr, e1) := pwm_hw_stop_safe s.pwm_running
  let s := { s with pwm_running := pr }
  let (s, e3) := led_apply s 0
  let (s, e4) := stop_timers s
  let s := { s with remaining_ms := 0, timeout_expired := false }
  (s, e1 ++ [Ev.pinHiZ] ++ e3 ++ e4)

/-- `enter_powered_menu_standby` of the inverter-selection variant: after
confirmation, enter the powered menu with Stand by applied. -/
def enter_powered_menu_standby (s : AppState) : AppState × List Ev :=
  let s := { s with powered := true, cursor := 0, first_visible := 0 }
  apply_mode s 0

/-- `help_layout_params` of the inverter-selection variant. -/
def help_layout_params (total_lines : Nat) : Nat × Nat :=
  let ml0 := (64 - 10) / 9
  let ml := if ml0 < 1 then 1 else ml0
  let mtl := if ml < total_lines then total_lines - ml else 0
  (ml, mtl)

/-- The short-Back hint: show the overlay, lazily allocate the one-shot
hint timer and (re)start it at 1500 ms. -/
def hint_show (s : AppState) : AppState × List Ev :=
  let s := { s with hint_visible := true }
  let (s, e1) :=
    match s.hint_timer with
    | none => ({ s with hint_timer := some ⟨false, 0, false⟩ }, [Ev.allocTimer .hint false])
    | some _ => (s, [])
  let (ht, e2) := timer_start1 .hint s.hint_timer 1500
  ({ s with hint_timer := ht }, e1 ++ e2)

/-- Input key codes (`InputKey`). -/
inductive InputKey where
  | up
  | down
  | right
  | left
  | ok
  | back
deriving DecidableEq

/-- Input event types (`InputType`); `rep` stands for `InputTypeRepeat`. -/
inductive InputType where
  | press
  | release
  | short
  | long
  | rep
deriving DecidableEq

/-- An `InputEvent` delivered through the message queue. -/
structure InputEvent where
  type : InputType
  key : InputKey
deriving DecidableEq

/-- The event-dispatch body of the main loop of the inverter-selection
variant, i.e. everything executed for one dequeued `InputEvent`: first the
global long-Back exit check, then the per-screen `switch`. The boolean
results of the two blocking dialogs (`show_power_on_confirm`,
`show_limit_alert_confirm`; at most one can be reached per event) are passed
in as `confirm`. Returns the new state, the `exit_app` flag, and the
hardware trace. -/
def handle_event (s : AppState) (ev : InputEvent) (confirm : Bool) :
    AppState × Bool × List Ev :=
  if ev.type = InputType.long ∧ ev.key = InputKey.back then
    (s, true, [])
  else
    match s.screen with
    | .selectInverter =>
      if ev.type = .short ∨ ev.type = .rep then
        if ev.key = .up then ({ s with cursor := if s.cursor = 0 then 1 else 0 }, false, [])
        else if ev.key = .down then ({ s with cursor := if s.cursor = 1 then 0 else 1 }, false, [])
        else if ev.key = .ok then
          let s := { s with inverter := if s.cursor = 0 then .embraco else .samsung }
          let (s, tr) := enter_safe_menu s
          ({ s with screen := .menu }, false, tr)
        else if ev.key = .back then
          let (s, tr) := hint_show s
          (s, false, tr)
        else (s, false, [])
      else (s, false, [])
    | .menu =>
      let row_total := if s.powered then MODE_COUNT + 3 else 3
      if ev.type = .short then
        if ev.key = .up then
          if s.cursor = 0 then
            ({ s with cursor := row_total - 1,
                      first_visible := if MAX_ROWS < row_total then row_total - MAX_ROWS else 0 },
             false, [])
          else
            let c := s.cursor - 1
            ({ s with cursor := c,
                      first_visible := if c < s.first_visible then c else s.first_visible },
             false, [])
        else if ev.key = .down then
          if s.cursor = row_total - 1 then
            ({ s with cursor := 0, first_visible := 0 }, false, [])
          else
            let c := s.cursor + 1
            ({ s with cursor := c,
                      first_visible := if s.first_visible + MAX_ROWS ≤ c then c - (MAX_ROWS - 1)
                                       else s.first_visible },
             false, [])
        else if ev.key = .ok then
          if s.powered then
            if s.cursor < MODE_COUNT then
              let (s, tr) := apply_mode s s.cursor
              (s, false, tr)
            else if s.cursor = MODE_COUNT then
              let (s, tr) := enter_safe_menu s
              (s, false, tr)
            else if s.cursor = MODE_COUNT + 1 then
              ({ s with screen := .settings, cursor := 0, first_visible := 0 }, false, [])
            else
              let (s, tr) := apply_mode s 0
              ({ s with screen := .help, help_top_line := 0 }, false, tr)
          else
            if s.cursor = 0 then
              if confirm then
                let (s, tr) := enter_powered_menu_standby s
                (s, false, tr)
              else (s, false, [])
            else if s.cursor = 1 then
              ({ s with screen := .settings, cursor := 0, first_visible := 0 }, false, [])
            else
              ({ s with screen := .help, help_top_line := 0 }, false, [])
        else if ev.key = .back then
          let (s, tr) := hint_show s
          (s, false, tr)
        else (s, false, [])
      else (s, false, [])
    | .help =>
      if ev.type = .short ∨ ev.type = .rep then
        let total_lines :=
          if s.inverter = .embraco then HELP_EMBRACO_COUNT else HELP_SAMSUNG_COUNT
        let mtl := (help_layout_params total_lines).2
        if ev.key = .up then
          ({ s with help_top_line := if 0 < s.help_top_line then s.help_top_line - 1
                                     else s.help_top_line }, false, [])
        else if ev.key = .down then
          ({ s with help_top_line := if s.help_top_line < mtl then s.help_top_line + 1
                                     else s.help_top_line }, false, [])
        else if ev.key = .back then
          ({ s with screen := .menu }, false, [])
        else (s, false, [])
      else (s, false, [])
    | .settings =>
      let ROW_TOTAL := 5
      if ev.type = .short then
        if ev.key = .up then
          if s.cursor = 0 then
            ({ s with cursor := ROW_TOTAL - 1,
                      first_visible := if MAX_ROWS < ROW_TOTAL then ROW_TOTAL - MAX_ROWS else 0 },
             false, [])
          else
            let c := s.cursor - 1
            let c := if c = 2 then 1 else c
            ({ s with cursor := c,
                      first_visible := if c < s.first_visible then c else s.first_visible },
             false, [])
        else if ev.key = .down then
          if s.cursor = ROW_TOTAL - 1 then
            ({ s with cursor := 0, first_visible := 0 }, false, [])
          else
            let c := s.cursor + 1
            let c := if c = 2 then 3 else c
            ({ s with cursor := c,
                      first_visible := if s.first_visible + MAX_ROWS ≤ c then c - (MAX_ROWS - 1)
                                       else s.first_visible },
             false, [])
        else if ev.key = .ok then
          if s.cursor = 0 then
            if s.limit_runtime then
              if confirm then
                let s := { s with limit_runtime := false }
                let (s, tr) := stop_timers s
                ({ s with remaining_ms := 0 }, false, tr)
              else (s, false, [])
            else
              let s := { s with limit_runtime := true }
              let (s, tr) := start_tick_timer_if_needed s
              (s, false, tr)
          else if s.cursor = 1 then
            ({ s with arrow_captcha := !s.arrow_captcha }, false, [])
          else if s.cursor = 3 then
            if s.inverter ≠ .embraco then
              let s := { s with inverter := .embraco }
              let (s, tr) := enter_safe_menu s
              ({ s with screen := .menu }, false, tr)
            else (s, false, [])
          else if s.cursor = 4 then
            if s.inverter ≠ .samsung then
              let s := { s with inverter := .samsung }
              let (s, tr) := enter_safe_menu s
              ({ s with screen := .menu }, false, tr)
            else (s, false, [])
          else (s, false, [])
        else if ev.key = .back then
          ({ s with screen := .menu, cursor := 0, first_visible := 0 }, false, [])
        else (s, false, [])
      else (s, false, [])

/-- The cleanup block after the main loop of the inverter-selection variant:
stop and free the LED and hint timers, stop and free the countdown timers,
stop PWM safely, put the pin in Hi-Z and reset the RGB LED. -/
def cleanup (s : AppState) : AppState × List Ev :=
  let (s, e1) :=
    match s.led_timer with
    | some _ => ({ s with led_timer := none }, [Ev.stopTimer .led, Ev.freeTimer .led])
    | none => (s, [])
  let (s, e2) :=
    match s.hint_timer with
    | some _ => ({ s with hint_timer := none }, [Ev.stopTimer .hint, Ev.freeTimer .hint])
    | none => (s, [])
  let (s, e3) := stop_timers s
  let (s, e4) := free_timers s
  let (pr, e5) := pwm_hw_stop_safe s.pwm_running
  let s := { s with pwm_running := pr }
  (s, e1 ++ e2 ++ e3 ++ e4 ++ e5 ++ [Ev.pinHiZ, Ev.ledSet false])

end V2

/-- The initial `AppState` of `embraco_starter` in `src/embraco_starter.c`:
start on the Help screen, Power off active, limit enabled, nothing running. -/
def state0 : AppState :=
  { screen := .help, cursor := 0, first_visible := 0, active := 0, help_top_line := 0,
    limit_runtime := true, led_timer := none, led_on := false, pwm_running := false,
    hint_visible := false, hint_timer := none, tick_timer := none, off_timer := none,
    remaining_ms := 0, timeout_expired := false }

/-- A reachable state with Low speed running (used as concrete input for
witnesses): mode 1 applied from `state0`. -/
def state_low : AppState := (apply_mode { state0 with screen := .menu } 1).1

/-- A state with Mid speed recorded active but the limit disabled and a
stale `remaining_ms` (concrete input for witnesses). -/
def state_mid_nolimit : AppState :=
  { state_low with limit_runtime := false, active := 2, remaining_ms := 777 }

/-- A state in which the one-shot off timer has just fired (the expiry flag
is raised), as seen by the main loop. -/
def state_expired : AppState := { state0 with timeout_expired := true }

/-- The initial `AppState` of the inverter-selection variant: start on the
inverter-selection screen, unpowered, limit enabled. -/
def state0v2 : V2.AppState :=
  { screen := .selectInverter, inverter := .embraco, powered := false, cursor := 0,
    first_visible := 0, active := 0, help_top_line := 0, limit_runtime := true,
    arrow_captcha := true, led_timer := none, led_on := false, pwm_running := false,
    hint_visible := false, hint_timer := none, tick_timer := none, off_timer := none,
    remaining_ms := 0, timeout_expired := false }

/-- The built-in FREQUENCY profile (index 0 of `profiles`). -/
def profile0 : GpioProfile :=
  profiles.getD 0 ⟨"", .frequency, false, false, false, 0, 0, 0, ⟨false, false⟩, 0⟩

/-- A concrete armed engine state whose half-period has elapsed at tick 5
(concrete input for witnesses). -/
def engine_st0 : EngineState :=
  { out_state := false, in_state := false, in_last_change_ms := 0,
    next_toggle_ms := 5, phase_on := false, current_freq_hz := 0, armed := true }

/-- C6: `engine_cf10b_build_set_speed` always produces exactly 5 bytes
`[0xA5, 0xC3, lsb, msb, ck]` whose sum is 0 mod 256, with `lsb + 256*msb`
the RPM clamped to at most 4500 and `ck` the CF10B checksum of the four data
bytes; at 4500 the frame is `[0xA5, 0xC3, 0x94, 0x11, 0xF3]` with
`0xF3 = (0x100 - ((0xA5+0xC3+0x94+0x11) & 0xFF)) & 0xFF`. -/
theorem C6_cf10b_frame (rpm : Nat) :
    (engine_cf10b_build_set_speed rpm).length = 5 ∧
    (engine_cf10b_build_set_speed rpm).sum % 256 = 0 ∧
    (engine_cf10b_build_set_speed rpm).getD 0 0 = 0xA5 ∧
    (engine_cf10b_build_set_speed rpm).getD 1 0 = 0xC3 ∧
    (engine_cf10b_build_set_speed rpm).getD 2 0 + 256 * ((engine_cf10b_build_set_speed rpm).getD 3 0)
      = min rpm 4500 ∧
    (engine_cf10b_build_set_speed rpm).getD 4 0
      = engine_cf10b_checksum 0xA5 0xC3 ((engine_cf10b_build_set_speed rpm).getD 2 0)
          ((engine_cf10b_build_set_speed rpm).getD 3 0) ∧
    engine_cf10b_build_set_speed 4500 = [0xA5, 0xC3, 0x94, 0x11, 0xF3] := by
  refine ⟨?_, ?_, ?_, ?_, ?_, ?_, by decide⟩ <;>
    simp only [engine_cf10b_build_set_speed, engine_cf10b_checksum, List.length_cons,
      List.length_nil, List.sum_cons, List.sum_nil, List.getD_cons_succ, List.getD_cons_zero]
  all_goals split <;> omega

/-- The trace of `stop_timers` contains no pin-drive events (only timer
bookkeeping). -/
lemma stop_timers_no_drive (s : AppState) :
    ∀ e ∈ (stop_timers s).2, e.isPinDrive = false := by
  rcases h1 : s.tick_timer with _ | t1 <;> rcases h2 : s.off_timer with _ | t2 <;>
    simp [stop_timers, timer_stop1, h1, h2, Ev.isPinDrive]

/-- The trace of `led_apply` contains no pin-drive events (LED and timer
commands only). -/
lemma led_apply_no_drive (s : AppState) (b : Nat) :
    ∀ e ∈ (led_apply s b).2, e.isPinDrive = false := by
  rcases h1 : s.led_timer with _ | t <;> by_cases hb : b = 0 <;>
    simp [led_apply, h1, hb, Ev.isPinDrive]

/-- The trace of `start_tick_timer_if_needed` contains no pin-drive events
(timer bookkeeping only). -/
lemma start_tick_no_drive (s : AppState) :
    ∀ e ∈ (start_tick_timer_if_needed s).2, e.isPinDrive = false := by
  rcases h1 : s.tick_timer with _ | t1 <;> rcases h2 : s.off_timer with _ | t2 <;>
    simp [start_tick_timer_if_needed, stop_timers, timer_stop1, timer_start1, h1, h2,
      Ev.isPinDrive] <;>
    split_ifs <;> simp [Ev.isPinDrive]

/-- C1: on every `apply_mode` transition with PWM generation running
(`pwm_running = true`, covering every transition out of a PWM mode A to any
B ≠ A), the emitted hardware trace begins with the PWM stop followed by the
fixed 1 ms settle delay, and only then the drive for B (push-pull low for
mode 0, otherwise the new PWM frequency at 50% duty); moreover these are the
only two events that drive the pin at all, so the stop and the new drive
can never overlap. -/
theorem C1_stop_before_drive (s : AppState) (idx : Nat)
    (hidx : idx < MODE_COUNT) (_hAB : s.active ≠ idx) (hrun : s.pwm_running = true) :
    (apply_mode s idx).2.take 3
      = [Ev.pwmStop, Ev.delayMs 1,
          if (modeAt idx).freq_hz = 0 then Ev.pinPPLow
          else Ev.pwmStart (modeAt idx).freq_hz 50] ∧
    (apply_mode s idx).2.filter (fun e => e.isPinDrive)
      = [Ev.pwmStop,
          if (modeAt idx).freq_hz = 0 then Ev.pinPPLow
          else Ev.pwmStart (modeAt idx).freq_hz 50] := by
  have hg : ¬ MODE_COUNT ≤ idx := by omega
  by_cases hf : (modeAt idx).freq_hz = 0
  · simp [apply_mode, hg, hf, pwm_hw_stop_safe, hrun, Ev.isPinDrive, List.filter_append]
    exact ⟨fun a ha => stop_timers_no_drive _ a ha, fun a ha => led_apply_no_drive _ _ a ha⟩
  · simp [apply_mode, hg, hf, pwm_hw_stop_safe, pwm_hw_start_safe, hrun, Ev.isPinDrive,
      List.filter_append]
    exact ⟨fun a ha => start_tick_no_drive _ a ha, fun a ha => led_apply_no_drive _ _ a ha⟩

/-- Witness for C1 at a concrete input: from the reachable state with Low
speed running (mode 1, PWM at 55 Hz), applying Mid speed (mode 2). -/
theorem C1_stop_before_drive_witness :
    2 < MODE_COUNT ∧ state_low.active ≠ 2 ∧ state_low.pwm_running = true ∧
    ((apply_mode state_low 2).2.take 3
        = [Ev.pwmStop, Ev.delayMs 1,
            if (modeAt 2).freq_hz = 0 then Ev.pinPPLow
            else Ev.pwmStart (modeAt 2).freq_hz 50] ∧
      (apply_mode state_low 2).2.filter (fun e => e.isPinDrive)
        = [Ev.pwmStop,
            if (modeAt 2).freq_hz = 0 then Ev.pinPPLow
            else Ev.pwmStart (modeAt 2).freq_hz 50]) :=
  ⟨by decide, by decide, by decide,
    C1_stop_before_drive state_low 2 (by decide) (by decide) (by decide)⟩

/-- C2: with the limit enabled and a non-idle mode applied from a state whose
off timer was not yet allocated, `apply_mode` arms the one-shot off timer for
exactly `default_secs * 1000` ms and sets `remaining_ms` to the same value;
the off-timer callback raises `timeout_expired` and zeroes `remaining_ms`
but performs no mode transition itself (active mode, PWM state and screen
are untouched in callback context); the main-loop service block clears the
flag, transitions to mode index 0 (whose trace never contains the Hi-Z
disconnect) and the 1 Hz tick callback decrements `remaining_ms` in 1000 ms
steps clamped at 0 (`Nat` subtraction, never below 0). -/
theorem C2_runtime_limit_countdown (s u v : AppState) (idx : Nat)
    (hidx : idx < MODE_COUNT) (h0 : idx ≠ 0)
    (hlim : s.limit_runtime = true) (hoff : s.off_timer = none)
    (hexp : v.timeout_expired = true) :
    ((apply_mode s idx).1.off_timer
        = some { running := true, period_ms := (modeAt idx).default_secs * 1000,
                 periodic := false } ∧
      (apply_mode s idx).1.remaining_ms = (modeAt idx).default_secs * 1000) ∧
    ((off_timer_cb u).timeout_expired = true ∧ (off_timer_cb u).remaining_ms = 0 ∧
      (off_timer_cb u).active = u.active ∧ (off_timer_cb u).pwm_running = u.pwm_running ∧
      (off_timer_cb u).screen = u.screen) ∧
    ((service_timeout v).1.active = 0 ∧ (service_timeout v).1.timeout_expired = false ∧
      Ev.pinHiZ ∉ (service_timeout v).2) ∧
    (tick_timer_cb u).remaining_ms = u.remaining_ms - 1000 := by
  have hmc : MODE_COUNT = 4 := by decide
  refine ⟨?_, ?_, ?_, ?_⟩
  · have h123 : idx = 1 ∨ idx = 2 ∨ idx = 3 := by omega
    rcases h1 : s.tick_timer with _ | t1 <;> rcases h3 : s.led_timer with _ | t3 <;>
      rcases h4 : s.pwm_running <;> rcases h123 with h | h | h <;> subst h <;>
      simp [apply_mode, MODE_COUNT, kModes, modeAt, pwm_hw_stop_safe, pwm_hw_start_safe,
        start_tick_timer_if_needed, stop_timers, timer_stop1, timer_start1, led_apply,
        List.getD_cons_succ, List.getD_cons_zero, hlim, hoff, h1, h3, h4]
  · simp [off_timer_cb]
  · rcases h1 : v.tick_timer with _ | t1 <;> rcases h2 : v.off_timer with _ | t2 <;>
      rcases h3 : v.led_timer with _ | t3 <;> rcases h4 : v.pwm_running <;>
      simp [service_timeout, hexp, apply_mode, MODE_COUNT, kModes, modeAt, pwm_hw_stop_safe,
        stop_timers, timer_stop1, led_apply, List.getD_cons_succ, List.getD_cons_zero,
        h1, h2, h3, h4]
  · simp only [tick_timer_cb]
    split <;> omega

/-- Witness for C2 at concrete inputs: Max speed (mode 3, 30 s limit)
applied from the fresh menu state; callback and service behaviour checked on
the running Low-speed state and on a state with the expiry flag raised. -/
theorem C2_runtime_limit_countdown_witness :
    3 < MODE_COUNT ∧ (3 : Nat) ≠ 0 ∧ state0.limit_runtime = true ∧
    state0.off_timer = none ∧ state_expired.timeout_expired = true ∧
    (((apply_mode state0 3).1.off_timer
        = some { running := true, period_ms := (modeAt 3).default_secs * 1000,
                 periodic := false } ∧
      (apply_mode state0 3).1.remaining_ms = (modeAt 3).default_secs * 1000) ∧
    ((off_timer_cb state_low).timeout_expired = true ∧
      (off_timer_cb state_low).remaining_ms = 0 ∧
      (off_timer_cb state_low).active = state_low.active ∧
      (off_timer_cb state_low).pwm_running = state_low.pwm_running ∧
      (off_timer_cb state_low).screen = state_low.screen) ∧
    ((service_timeout state_expired).1.active = 0 ∧
      (service_timeout state_expired).1.timeout_expired = false ∧
      Ev.pinHiZ ∉ (service_timeout state_expired).2) ∧
    (tick_timer_cb state_low).remaining_ms = state_low.remaining_ms - 1000) :=
  ⟨by decide, by decide, by decide, by decide, by decide,
    C2_runtime_limit_countdown state0 state_low state_expired 3
      (by decide) (by decide) (by decide) (by decide) (by decide)⟩

/-- C3: in the Settings OK handler, turning the limit off after the
confirmation dialog immediately stops both countdown timers and zeroes
`remaining_ms`, whatever mode is active; turning it on while a non-idle mode
is active immediately restarts the countdown at the full default duration of
that mode (both timers running, the one-shot period equal to the full
duration), regardless of any stale `remaining_ms` value. -/
theorem C3_limit_toggle (s u : AppState) (c : Bool)
    (hon : s.limit_runtime = true)
    (hoffu : u.limit_runtime = false) (hu0 : u.active ≠ 0) (huidx : u.active < MODE_COUNT) :
    ((settings_ok_handler s true).1.limit_runtime = false ∧
      (settings_ok_handler s true).1.remaining_ms = 0 ∧
      timer_running (settings_ok_handler s true).1.tick_timer = false ∧
      timer_running (settings_ok_handler s true).1.off_timer = false) ∧
    ((settings_ok_handler u c).1.limit_runtime = true ∧
      (settings_ok_handler u c).1.remaining_ms = (modeAt u.active).default_secs * 1000 ∧
      (∀ t, (settings_ok_handler u c).1.off_timer = some t →
        t.running = true ∧ t.period_ms = (modeAt u.active).default_secs * 1000) ∧
      (∀ t, (settings_ok_handler u c).1.tick_timer = some t →
        t.running = true ∧ t.period_ms = 1000)) := by
  have hmc : MODE_COUNT = 4 := by decide
  constructor
  · rcases h1 : s.tick_timer with _ | t1 <;> rcases h2 : s.off_timer with _ | t2 <;>
      simp [settings_ok_handler, hon, stop_timers, timer_stop1, timer_running, h1, h2]
  · have h123 : u.active = 1 ∨ u.active = 2 ∨ u.active = 3 := by omega
    rcases h1 : u.tick_timer with _ | t1 <;> rcases h2 : u.off_timer with _ | t2 <;>
      rcases h123 with h | h | h <;>
      simp [settings_ok_handler, hoffu, h, start_tick_timer_if_needed, stop_timers,
        timer_stop1, timer_start1, modeAt, kModes, List.getD_cons_succ, List.getD_cons_zero,
        h1, h2]

/-- Witness for C3 at concrete inputs: the limit switched off from the
running Low-speed state, and switched on in a state where Mid speed is
active with the limit disabled and a stale `remaining_ms`. -/
theorem C3_limit_toggle_witness :
    state_low.limit_runtime = true ∧
    state_mid_nolimit.limit_runtime = false ∧
    state_mid_nolimit.active ≠ 0 ∧
    state_mid_nolimit.active < MODE_COUNT ∧
    (((settings_ok_handler state_low true).1.limit_runtime = false ∧
      (settings_ok_handler state_low true).1.remaining_ms = 0 ∧
      timer_running (settings_ok_handler state_low true).1.tick_timer = false ∧
      timer_running (settings_ok_handler state_low true).1.off_timer = false) ∧
    ((settings_ok_handler state_mid_nolimit false).1.limit_runtime = true ∧
      (settings_ok_handler state_mid_nolimit false).1.remaining_ms
        = (modeAt state_mid_nolimit.active).default_secs * 1000 ∧
      (∀ t, (settings_ok_handler state_mid_nolimit false).1.off_timer = some t →
        t.running = true ∧ t.period_ms = (modeAt state_mid_nolimit.active).default_secs * 1000) ∧
      (∀ t, (settings_ok_handler state_mid_nolimit false).1.tick_timer = some t →
        t.running = true ∧ t.period_ms = 1000))) :=
  ⟨by decide, by decide, by decide, by decide,
    C3_limit_toggle state_low state_mid_nolimit false
      (by decide) (by decide) (by decide) (by decide)⟩

/-- C5: the dotted scrollbar draws no thumb for a single step; for `pos = 0`
the thumb centre sits at the top bound `y0 = 2` of the pixel track, for
`pos = total_steps - 1` at the bottom bound `y1 - 1 = 61` (the deliberate
clamp that lets the 4 px thumb box rest on the screen bottom edge); and for
fixed `total_steps` the thumb centre is monotonically non-decreasing in
`pos` and never leaves the clamped track `[2, 61]`. -/
theorem C5_scrollbar_mapping (ts p q : Nat) (hts : 2 ≤ ts) (hpq : p ≤ q) (_hq : q < ts) :
    draw_scrollbar_dotted 1 p = none ∧
    draw_scrollbar_dotted ts 0 = some 2 ∧
    draw_scrollbar_dotted ts (ts - 1) = some 61 ∧
    (∃ a b, draw_scrollbar_dotted ts p = some a ∧ draw_scrollbar_dotted ts q = some b ∧
      a ≤ b ∧ 2 ≤ a ∧ b ≤ 61) := by
  have h1 : ¬ ts ≤ 1 := by omega
  have h2 : 1 < ts := by omega
  have hd0 : ts - 1 ≠ 0 := by omega
  refine ⟨by simp [draw_scrollbar_dotted], ?_, ?_, ?_⟩
  · simp [draw_scrollbar_dotted, h1, h2]
  · simp only [draw_scrollbar_dotted, h1, if_false, h2, if_true]
    rw [Nat.mul_div_cancel_left 60 (by omega : 0 < ts - 1)]
    norm_num
  · simp only [draw_scrollbar_dotted, h1, if_false, h2, if_true]
    refine ⟨_, _, rfl, rfl, ?_, ?_, ?_⟩
    · have hmono : p * (62 - 2) / (ts - 1) ≤ q * (62 - 2) / (ts - 1) :=
        Nat.div_le_div_right (Nat.mul_le_mul_right _ hpq)
      split_ifs <;> omega
    · split_ifs <;> omega
    · split_ifs <;> omega

/-- Witness for C5 at concrete inputs: the 6-row main menu
(`total_steps = ROW_TOTAL = 6`) with positions 2 and 4. -/
theorem C5_scrollbar_mapping_witness :
    2 ≤ 6 ∧ 2 ≤ 4 ∧ 4 < 6 ∧
    (draw_scrollbar_dotted 1 2 = none ∧
      draw_scrollbar_dotted 6 0 = some 2 ∧
      draw_scrollbar_dotted 6 (6 - 1) = some 61 ∧
      (∃ a b, draw_scrollbar_dotted 6 2 = some a ∧ draw_scrollbar_dotted 6 4 = some b ∧
        a ≤ b ∧ 2 ≤ a ∧ b ≤ 61)) :=
  ⟨by decide, by decide, by decide,
    C5_scrollbar_mapping 6 2 4 (by decide) (by decide) (by decide)⟩

/-- C9: `apply_mode` called with an index at or beyond `MODE_COUNT` returns
without any state mutation and without emitting a single hardware command,
and `profile_set_active` with an index at or beyond `profile_count` leaves
the profile runtime untouched; neither propagates any error. -/
theorem C9_invalid_index_noop (s : AppState) (idx : Nat) (rt : ProfileRuntime) (j : Nat)
    (hidx : MODE_COUNT ≤ idx) (hj : profile_count ≤ j) :
    apply_mode s idx = (s, []) ∧ profile_set_active rt j = rt := by
  constructor
  · simp [apply_mode, hidx]
  · simp [profile_set_active, hj]

/-- Witness for C9 at concrete inputs: mode index 4 (one past the table) on
the initial state, profile index 3 (one past the three built-ins). -/
theorem C9_invalid_index_noop_witness :
    MODE_COUNT ≤ 4 ∧ profile_count ≤ 3 ∧
    (apply_mode state0 4 = (state0, []) ∧
      profile_set_active { active_index := 0, locked := false } 3
        = { active_index := 0, locked := false }) :=
  ⟨by decide, by decide,
    C9_invalid_index_noop state0 4 { active_index := 0, locked := false } 3
      (by decide) (by decide)⟩

set_option maxHeartbeats 1000000 in
/-- C7: on every `engine_tick`, when the profile's
`interlock_in0_blocks_out0` flag is set and the debounced input reads
active, `armed` is forced false before the model dispatch, so no write of
this tick can request an active output; the frequency model clamps the
configured frequency into 66..150 Hz (`current_freq_hz` is exactly the
clamp), toggles the logical phase exactly when the half-period has elapsed
(`next_toggle_ms` reached) and leaves it unchanged otherwise; and any write
requesting the active output level implies `armed` is true. -/
theorem C7_interlock_frequency (st : EngineState) (p : GpioProfile) (inp : Bool) (t : Nat) :
    (p.safety.interlock_in0_blocks_out0 = true → inp = true →
      ((engine_tick st p inp t).1.armed = false ∧
        ∀ w ∈ (engine_tick st p inp t).2, w.out_on = false)) ∧
    (p.kind = .frequency →
      ((engine_tick st p inp t).1.current_freq_hz = max 66 (min 150 p.pwm_freq_hz) ∧
        66 ≤ (engine_tick st p inp t).1.current_freq_hz ∧
        (engine_tick st p inp t).1.current_freq_hz ≤ 150 ∧
        (st.next_toggle_ms ≤ t → (engine_tick st p inp t).1.phase_on = !st.phase_on) ∧
        (t < st.next_toggle_ms → (engine_tick st p inp t).1.phase_on = st.phase_on ∧
          (engine_tick st p inp t).2 = []))) ∧
    (∀ w ∈ (engine_tick st p inp t).2, w.out_on = true →
      (engine_tick st p inp t).1.armed = true) := by
  rcases hI : p.safety.interlock_in0_blocks_out0 <;> rcases hin : inp <;>
    rcases hk : p.kind <;> rcases hA : st.armed <;>
    by_cases hw : st.next_toggle_ms ≤ t <;> by_cases ho : p.has_out0 <;>
    simp [engine_tick, tick_frequency, write_out, hI, hin, hk, hA, hw, ho] <;>
    split_ifs <;> omega

/-- Witness for C7 at a concrete input: the built-in FREQUENCY profile (which
has the interlock enabled and 150 Hz configured) with the debounced input
active, an armed engine state, at a tick where the half-period has elapsed. -/
theorem C7_interlock_frequency_witness :
    profile0.safety.interlock_in0_blocks_out0 = true ∧
    profile0.kind = .frequency ∧
    (engine_tick engine_st0 profile0 true 5).1.armed = false :=
  have hmain := C7_interlock_frequency engine_st0 profile0 true 5
  ⟨by decide, by decide, (hmain.1 (by decide) rfl).1⟩

set_option maxHeartbeats 4000000 in
/-- C8: applying the same valid mode index twice is idempotent: the second
`apply_mode` leaves the application state exactly as the first left it, its
trace contains no tick- or off-timer allocation (the handles allocated by
the first application are reused), and replaying its hardware trace does not
change the physical peripheral state established by the first application. -/
theorem C8_apply_mode_idempotent (s : AppState) (idx : Nat) (hidx : idx < MODE_COUNT) :
    (apply_mode (apply_mode s idx).1 idx).1 = (apply_mode s idx).1 ∧
    (∀ b, Ev.allocTimer .tick b ∉ (apply_mode (apply_mode s idx).1 idx).2) ∧
    (∀ b, Ev.allocTimer .off b ∉ (apply_mode (apply_mode s idx).1 idx).2) ∧
    ∀ h : HwState,
      run_hw (run_hw h (apply_mode s idx).2) (apply_mode (apply_mode s idx).1 idx).2
        = run_hw h (apply_mode s idx).2 := by
  have hmc : MODE_COUNT = 4 := by decide
  have h03 : idx = 0 ∨ idx = 1 ∨ idx = 2 ∨ idx = 3 := by omega
  rcases h1 : s.tick_timer with _ | t1 <;> rcases h2 : s.off_timer with _ | t2 <;>
    rcases h3 : s.led_timer with _ | t3 <;> rcases h4 : s.pwm_running <;>
    rcases h5 : s.limit_runtime <;>
    rcases h03 with h | h | h | h <;> subst h <;>
    simp [apply_mode, MODE_COUNT, kModes, modeAt, List.getD_cons_succ, List.getD_cons_zero,
      pwm_hw_stop_safe, pwm_hw_start_safe, start_tick_timer_if_needed, stop_timers,
      timer_stop1, timer_start1, led_apply, run_hw, step_hw, h1, h2, h3, h4, h5]

/-- Witness for C8 at a concrete input: Low speed applied twice from the
initial state. -/
theorem C8_apply_mode_idempotent_witness :
    1 < MODE_COUNT ∧
    ((apply_mode (apply_mode state0 1).1 1).1 = (apply_mode state0 1).1 ∧
    (∀ b, Ev.allocTimer .tick b ∉ (apply_mode (apply_mode state0 1).1 1).2) ∧
    (∀ b, Ev.allocTimer .off b ∉ (apply_mode (apply_mode state0 1).1 1).2) ∧
    ∀ h : HwState,
      run_hw (run_hw h (apply_mode state0 1).2) (apply_mode (apply_mode state0 1).1 1).2
        = run_hw h (apply_mode state0 1).2) :=
  ⟨by decide, C8_apply_mode_idempotent state0 1 (by decide)⟩

set_option maxHeartbeats 4000000 in
/-- C10: `apply_mode` (inverter-selection variant) mutates only the active
mode index together with PWM/pin/LED hardware state and the countdown
bookkeeping; it never changes the screen, the cursor, the viewport top, the
help scroll position, the limit setting, the powered flag, nor the inverter
selection, the captcha setting or the hint overlay — so applying a mode
never moves the UI cursor or switches screens. -/
theorem C10_apply_mode_frame (s : V2.AppState) (idx : Nat) :
    (V2.apply_mode s idx).1.screen = s.screen ∧
    (V2.apply_mode s idx).1.cursor = s.cursor ∧
    (V2.apply_mode s idx).1.first_visible = s.first_visible ∧
    (V2.apply_mode s idx).1.help_top_line = s.help_top_line ∧
    (V2.apply_mode s idx).1.limit_runtime = s.limit_runtime ∧
    (V2.apply_mode s idx).1.powered = s.powered ∧
    (V2.apply_mode s idx).1.inverter = s.inverter ∧
    (V2.apply_mode s idx).1.arrow_captcha = s.arrow_captcha ∧
    (V2.apply_mode s idx).1.hint_visible = s.hint_visible ∧
    (V2.apply_mode s idx).1.hint_timer = s.hint_timer := by
  by_cases hg : V2.MODE_COUNT ≤ idx
  · simp [V2.apply_mode, hg]
  · rcases h1 : s.tick_timer with _ | t1 <;> rcases h2 : s.off_timer with _ | t2 <;>
      rcases h3 : s.led_timer with _ | t3 <;> rcases h4 : s.pwm_running <;>
      by_cases hf : (V2.modeAt idx).freq_hz = 0 <;>
      by_cases hb : (V2.modeAt idx).led_blink_hz = 0 <;>
      simp [V2.apply_mode, hg, hf, hb, pwm_hw_stop_safe, pwm_hw_start_safe,
        V2.start_tick_timer_if_needed, V2.stop_timers, timer_stop1, timer_start1,
        V2.led_apply, h1, h2, h3, h4] <;>
      split_ifs <;> simp

/-- C4: in the inverter-selection variant the long Back press is checked
before the per-screen dispatch: for every state — hence on every screen
(SelectInverter, Menu, Help, Settings) and whatever mode is active — it sets
the exit flag, leaves the state untouched and emits nothing; and the exit
cleanup path, run from any state whose `pwm_running` flag mirrors the
physical PWM generator, always leaves the pin in Hi-Z input mode with the
PWM generator stopped and the LED off. -/
theorem C4_long_back_exit (s : V2.AppState) (confirm : Bool) (h : HwState)
    (hmirror : h.pwm_on = s.pwm_running) :
    (V2.handle_event s ⟨.long, .back⟩ confirm).2.1 = true ∧
    (V2.handle_event s ⟨.long, .back⟩ confirm).1 = s ∧
    (V2.handle_event s ⟨.long, .back⟩ confirm).2.2 = [] ∧
    (run_hw h (V2.cleanup s).2).pin = PinMode.hiZ ∧
    (run_hw h (V2.cleanup s).2).pwm_on = false ∧
    (run_hw h (V2.cleanup s).2).led = false ∧
    (V2.cleanup s).1.pwm_running = false := by
  refine ⟨by simp [V2.handle_event], by simp [V2.handle_event], by simp [V2.handle_event],
    ?_, ?_, ?_, ?_⟩ <;>
  · rcases h1 : s.led_timer with _ | t1 <;> rcases h2 : s.hint_timer with _ | t2 <;>
      rcases h3 : s.tick_timer with _ | t3 <;> rcases h4 : s.off_timer with _ | t4 <;>
      rcases h5 : s.pwm_running <;>
      simp [V2.cleanup, V2.stop_timers, V2.free_timers, timer_stop1, pwm_hw_stop_safe,
        run_hw, step_hw, h1, h2, h3, h4, h5, hmirror]

/-- Witness for C4 at a concrete input: the initial state of the
inverter-selection variant (SelectInverter screen) and hardware that
mirrors it (pin Hi-Z, PWM off, LED off). -/
theorem C4_long_back_exit_witness :
    (HwState.mk .hiZ false false).pwm_on = state0v2.pwm_running ∧
    ((V2.handle_event state0v2 ⟨.long, .back⟩ false).2.1 = true ∧
    (V2.handle_event state0v2 ⟨.long, .back⟩ false).1 = state0v2 ∧
    (V2.handle_event state0v2 ⟨.long, .back⟩ false).2.2 = [] ∧
    (run_hw (HwState.mk .hiZ false false) (V2.cleanup state0v2).2).pin = PinMode.hiZ ∧
    (run_hw (HwState.mk .hiZ false false) (V2.cleanup state0v2).2).pwm_on = false ∧
    (run_hw (HwState.mk .hiZ false false) (V2.cleanup state0v2).2).led = false ∧
    (V2.cleanup state0v2).1.pwm_running = false) :=
  ⟨rfl, C4_long_back_exit state0v2 false (HwState.mk .hiZ false false) rfl⟩
